import Mathlib

/-!
Shallow embedding of the esports tournament management backend (`main.py`,
`schemas.py`) and proofs about its endpoint behaviour.

The document store (MongoDB, reached through the global `db` handle) is an
external collaborator; it is modelled as an explicit `Store` value holding one
list per collection, with `find_one` as `List.find?`, `update_one` as an
update of the first matching document, and `insert_many` as an append that
assigns fresh store identifiers from a counter.  Endpoints that mutate the
store are functions from `Option Store` (the possibly-unconfigured `db`
handle) to a result together with the new store.
-/

namespace Esports

/-! ### Store identifiers (bson ObjectId) -/

/-- A character is a hexadecimal digit (`ObjectId` accepts either case). -/
def isHexChar (c : Char) : Bool :=
  c.isDigit || ('a' ≤ c && c ≤ 'f') || ('A' ≤ c && c ≤ 'F')

/-- `ObjectId(s)` succeeds exactly on 24-character hexadecimal strings. -/
def isValidOidString (s : String) : Bool :=
  s.length == 24 && s.data.all isHexChar

/-- A store identifier: the canonical (lower-case) 24-hex-digit form of a bson
`ObjectId`. -/
structure OID where
  hex : String
deriving DecidableEq, Repr

/-- `ObjectId(tournament_id)` inside the `try` blocks of `main.py`: parse a
string into a store identifier, canonicalising to lower case (character by
character, which on a hex string agrees with `String.toLower`), or fail. -/
def parseOID (s : String) : Option OID :=
  if isValidOidString s then some ⟨String.mk (s.data.map Char.toLower)⟩ else none

/-- Store-generated identifier for the `n`-th inserted document: `n` written
in hexadecimal, padded to 24 digits. -/
def oidOfNat (n : Nat) : OID :=
  let ds := Nat.toDigits 16 n
  ⟨String.mk (List.replicate (24 - ds.length) '0' ++ ds)⟩

/-! ### Documents (one structure per collection, fields as in `schemas.py`,
with the store's `_id` added) -/

structure TournamentDoc where
  _id : OID
  name : String
  game : String
  team_ids : List String
deriving DecidableEq, Repr

structure TeamDoc where
  _id : OID
  team_name : String
  team_logo : Option String
deriving DecidableEq, Repr

structure MatchDoc where
  _id : OID
  tournament_id : String
  round : Nat
  team1_id : Option String
  team2_id : Option String
  winner_id : Option String
deriving DecidableEq, Repr

structure GroupDoc where
  _id : OID
  tournament_id : String
  name : String
deriving DecidableEq, Repr

structure StandingDoc where
  _id : OID
  tournament_id : String
  group_name : String
  team_id : Option String
  team_country_flag : Option String
  team_logo : Option String
  team_name : Option String
  total_points : Int
deriving DecidableEq, Repr

/-- The document store: one list per collection used by `main.py`, plus the
counter from which identifiers of newly inserted documents are generated. -/
structure Store where
  tournaments : List TournamentDoc
  teams : List TeamDoc
  «matches» : List MatchDoc
  groups : List GroupDoc
  standings : List StandingDoc
  nextOid : Nat
deriving DecidableEq, Repr

/-! ### Request models (`pydantic` models in `main.py`) -/

structure AttachTeamRequest where
  team_id : String
deriving DecidableEq, Repr

structure GroupGenerationRequest where
  number_of_teams : Int
  number_of_groups : Int
deriving DecidableEq, Repr

structure UpdateMatchRequest where
  team1_id : Option String
  team2_id : Option String
  winner_id : Option String
deriving DecidableEq, Repr

structure UpdateStandingRequest where
  team_id : Option String
  team_country_flag : Option String
  team_logo : Option String
  team_name : Option String
  total_points : Option Int
deriving DecidableEq, Repr

deriving instance DecidableEq for Except

/-! ### Errors and responses -/

/-- Failures an endpoint can produce: an `HTTPException` with a status code
and detail, or an unhandled Python `ZeroDivisionError`. -/
inductive ApiError where
  | http (status : Nat) (detail : String)
  | zeroDivisionError
deriving DecidableEq, Repr

structure OkResponse where
  ok : Bool
deriving DecidableEq, Repr

structure CreatedResponse where
  created : Nat
deriving DecidableEq, Repr

structure GroupGenResponse where
  groups_created : Nat
  standing_slots : Nat
deriving DecidableEq, Repr

/-- `serialize_doc` applied to a tournament document: `_id` is renamed to the
string field `id`. -/
structure TournamentResponse where
  id : String
  name : String
  game : String
  team_ids : List String
deriving DecidableEq, Repr

/-- `serialize_doc` for the tournament collection. -/
def serialize_tournament (d : TournamentDoc) : TournamentResponse :=
  { id := d._id.hex, name := d.name, game := d.game, team_ids := d.team_ids }

/-! ### Generic store-operation helpers -/

/-- Mongo `update_one`: apply `f` to the first element satisfying `p`, leave
everything else unchanged. -/
def updateFirst (p : α → Bool) (f : α → α) : List α → List α
  | [] => []
  | x :: xs => if p x then f x :: xs else x :: updateFirst p f xs

/-- `insert_many` id assignment: give the documents of the list consecutive
store-generated identifiers starting from `n`, via the setter `set`. -/
def assignIds (set : OID → α → α) : Nat → List α → List α
  | _, [] => []
  | n, d :: ds => set (oidOfNat n) d :: assignIds set (n + 1) ds

/-- `db["match"].insert_many(ms)`. -/
def insertMatches (st : Store) (ms : List MatchDoc) : Store :=
  { st with
    «matches» := st.«matches» ++ assignIds (fun o m => { m with _id := o }) st.nextOid ms,
    nextOid := st.nextOid + ms.length }

/-- `db["group"].insert_many(gs)`. -/
def insertGroups (st : Store) (gs : List GroupDoc) : Store :=
  { st with
    groups := st.groups ++ assignIds (fun o g => { g with _id := o }) st.nextOid gs,
    nextOid := st.nextOid + gs.length }

/-- `db["standing"].insert_many(ss)`. -/
def insertStandings (st : Store) (ss : List StandingDoc) : Store :=
  { st with
    standings := st.standings ++ assignIds (fun o s => { s with _id := o }) st.nextOid ss,
    nextOid := st.nextOid + ss.length }

/-! ### Endpoints -/

/-- Python truthiness of an `Optional[str]`: `None` and `""` are falsy. -/
def strTruthy : Option String → Bool
  | none => false
  | some s => !s.isEmpty

/-- Modelled from the spec: `get_documents` is defined in `database.py`,
which is not part of the sources here (only its caller `list_tournaments`
is).  The spec describes the store as "a document store exposing
find/insert/update-by-filter operations" and the listing as "all
tournaments, optionally filtered by exact game-name match", so the
tournament-collection instance used by `list_tournaments` returns the
documents matching the filter by field equality (all of them for the empty
filter). -/
def get_documents_tournament (st : Store) (filter_game : Option String) :
    List TournamentDoc :=
  match filter_game with
  | none => st.tournaments
  | some g => st.tournaments.filter (fun d => d.game == g)

/-- `GET /tournaments` (`list_tournaments` in `main.py`).  Note Python's
`filter_q = {"game": game} if game else {}`: the filter is used only when
`game` is truthy. -/
def list_tournaments (db : Option Store) (game : Option String) :
    List TournamentResponse :=
  match db with
  | none => []
  | some st =>
    let filter_q : Option String := if strTruthy game then game else none
    (get_documents_tournament st filter_q).map serialize_tournament

/-- `GET /tournaments/{tournament_id}` (`get_tournament` in `main.py`). -/
def get_tournament (db : Option Store) (tournament_id : String) :
    Except ApiError TournamentResponse :=
  match db with
  | none => .error (.http 500 "Database not configured")
  | some st =>
    match parseOID tournament_id with
    | none => .error (.http 400 "Invalid tournament id")
    | some tid =>
      match st.tournaments.find? (fun d => d._id == tid) with
      | none => .error (.http 404 "Not found")
      | some doc => .ok (serialize_tournament doc)

/-- Mongo `$addToSet` on the `team_ids` array: append the value unless it is
already present. -/
def addToSetTeamIds (team_id : String) (t : TournamentDoc) : TournamentDoc :=
  if team_id ∈ t.team_ids then t else { t with team_ids := t.team_ids ++ [team_id] }

/-- `POST /tournaments/{tournament_id}/teams` (`attach_team` in `main.py`). -/
def attach_team (db : Option Store) (tournament_id : String)
    (payload : AttachTeamRequest) : Except ApiError OkResponse × Option Store :=
  match db with
  | none => (.error (.http 500 "Database not configured"), none)
  | some st =>
    match parseOID tournament_id, parseOID payload.team_id with
    | some tid, some team_oid =>
      match st.teams.find? (fun t => t._id == team_oid) with
      | none => (.error (.http 404 "Team not found"), some st)
      | some _ =>
        (.ok ⟨true⟩,
         some { st with
            tournaments :=
              updateFirst (fun t => t._id == tid) (addToSetTeamIds payload.team_id)
                st.tournaments })
    | _, _ => (.error (.http 400 "Invalid IDs"), some st)

/-- The match documents built by the loop
`for i in range(0, len(team_ids), 2)` of `generate_brackets`: one document
per `i = 2k`, with `team1_id`/`team2_id` the (optional) elements at indices
`2k` and `2k+1`.  (`insert_many` later overwrites the placeholder `_id`.) -/
def generateMatchList (tournament_id : String) (team_ids : List String) :
    List MatchDoc :=
  (List.range ((team_ids.length + 1) / 2)).map (fun k =>
    { _id := oidOfNat 0,
      tournament_id := tournament_id,
      round := 1,
      team1_id := team_ids[2 * k]?,
      team2_id := team_ids[2 * k + 1]?,
      winner_id := none })

/-- `POST /tournaments/{tournament_id}/brackets/generate`
(`generate_brackets` in `main.py`). -/
def generate_brackets (db : Option Store) (tournament_id : String) :
    Except ApiError CreatedResponse × Option Store :=
  match db with
  | none => (.error (.http 500 "Database not configured"), none)
  | some st =>
    match parseOID tournament_id with
    | none => (.error (.http 400 "Invalid tournament id"), some st)
    | some tid =>
      match st.tournaments.find? (fun d => d._id == tid) with
      | none => (.error (.http 404 "Tournament not found"), some st)
      | some t =>
        let ms := generateMatchList tournament_id t.team_ids
        (.ok ⟨ms.length⟩, some (insertMatches st ms))

/-- `updates = {k: v for k, v in payload.model_dump().items() if v is not None}`
is non-empty for an `UpdateMatchRequest`. -/
def matchHasUpdates (p : UpdateMatchRequest) : Bool :=
  p.team1_id.isSome || p.team2_id.isSome || p.winner_id.isSome

/-- `$set` semantics for one field: a submitted (non-null) value overwrites,
an absent one keeps the stored value. -/
def setOpt (new old : Option α) : Option α :=
  match new with
  | some v => some v
  | none => old

/-- The `$set` document applied to a match by `update_match`. -/
def applyMatchUpdates (p : UpdateMatchRequest) (m : MatchDoc) : MatchDoc :=
  { m with
    team1_id := setOpt p.team1_id m.team1_id,
    team2_id := setOpt p.team2_id m.team2_id,
    winner_id := setOpt p.winner_id m.winner_id }

/-- `PUT /matches/{match_id}` (`update_match` in `main.py`). -/
def update_match (db : Option Store) (match_id : String)
    (payload : UpdateMatchRequest) : Except ApiError OkResponse × Option Store :=
  match db with
  | none => (.error (.http 500 "Database not configured"), none)
  | some st =>
    match parseOID match_id with
    | none => (.error (.http 400 "Invalid match id"), some st)
    | some mid =>
      if matchHasUpdates payload then
        (.ok ⟨true⟩,
         some { st with
            «matches» :=
              updateFirst (fun m => m._id == mid) (applyMatchUpdates payload)
                st.«matches» })
      else (.ok ⟨true⟩, some st)

/-- `group_names = [chr(ord('A') + i) for i in range(number_of_groups)]`. -/
def groupNames (number_of_groups : Int) : List String :=
  (List.range number_of_groups.toNat).map (fun i => String.mk [Char.ofNat (65 + i)])

/-- An empty standing slot as built by `generate_groups`. -/
def mkStanding (tournament_id group_name : String) : StandingDoc :=
  { _id := oidOfNat 0,
    tournament_id := tournament_id,
    group_name := group_name,
    team_id := none,
    team_country_flag := none,
    team_logo := none,
    team_name := none,
    total_points := 0 }

/-- `POST /tournaments/{tournament_id}/groups/generate` (`generate_groups` in
`main.py`).  The group insert happens before `slots_per_group` is computed,
and `number_of_teams // number_of_groups` raises `ZeroDivisionError` when
`number_of_groups == 0`; otherwise Python's `//` is floor division
(`Int.fdiv`). -/
def generate_groups (db : Option Store) (tournament_id : String)
    (payload : GroupGenerationRequest) :
    Except ApiError GroupGenResponse × Option Store :=
  match db with
  | none => (.error (.http 500 "Database not configured"), none)
  | some st =>
    match parseOID tournament_id with
    | none => (.error (.http 400 "Invalid tournament id"), some st)
    | some tid =>
      match st.tournaments.find? (fun d => d._id == tid) with
      | none => (.error (.http 404 "Tournament not found"), some st)
      | some _ =>
        let names := groupNames payload.number_of_groups
        let gs := names.map (fun g =>
          ({ _id := oidOfNat 0, tournament_id := tournament_id, name := g } : GroupDoc))
        let st1 := insertGroups st gs
        if payload.number_of_groups = 0 then
          (.error .zeroDivisionError, some st1)
        else
          let slots_per_group :=
            max 1 (Int.fdiv payload.number_of_teams payload.number_of_groups)
          let standings := names.flatMap (fun g =>
            List.replicate slots_per_group.toNat (mkStanding tournament_id g))
          (.ok ⟨gs.length, standings.length⟩, some (insertStandings st1 standings))

/-- `updates` is non-empty for an `UpdateStandingRequest`. -/
def standingHasUpdates (p : UpdateStandingRequest) : Bool :=
  p.team_id.isSome || p.team_country_flag.isSome || p.team_logo.isSome ||
    p.team_name.isSome || p.total_points.isSome

/-- The `$set` document applied to a standing by `update_standing`. -/
def applyStandingUpdates (p : UpdateStandingRequest) (s : StandingDoc) :
    StandingDoc :=
  { s with
    team_id := setOpt p.team_id s.team_id,
    team_country_flag := setOpt p.team_country_flag s.team_country_flag,
    team_logo := setOpt p.team_logo s.team_logo,
    team_name := setOpt p.team_name s.team_name,
    total_points :=
      match p.total_points with
      | some v => v
      | none => s.total_points }

/-- `PUT /standings/{standing_id}` (`update_standing` in `main.py`). -/
def update_standing (db : Option Store) (standing_id : String)
    (payload : UpdateStandingRequest) : Except ApiError OkResponse × Option Store :=
  match db with
  | none => (.error (.http 500 "Database not configured"), none)
  | some st =>
    match parseOID standing_id with
    | none => (.error (.http 400 "Invalid standing id"), some st)
    | some sid =>
      if standingHasUpdates payload then
        (.ok ⟨true⟩,
         some { st with
            standings :=
              updateFirst (fun s => s._id == sid) (applyStandingUpdates payload)
                st.standings })
      else (.ok ⟨true⟩, some st)

/-- The data fields of a match document, without the store-generated `_id`:
what `generate_brackets` itself determines about an inserted match. -/
def MatchDoc.fields (m : MatchDoc) :
    String × Nat × Option String × Option String × Option String :=
  (m.tournament_id, m.round, m.team1_id, m.team2_id, m.winner_id)

/-- No tournament in the store has duplicate entries in `team_ids`. -/
def storeNodup (st : Store) : Prop :=
  ∀ t ∈ st.tournaments, t.team_ids.Nodup

instance (st : Store) : Decidable (storeNodup st) :=
  List.decidableBAll _ st.tournaments

/-! ### Concrete sample data (used to instantiate theorems) -/

/-- A well-formed tournament id string. -/
def sampleTid : String := "aaaaaaaaaaaaaaaaaaaaaaaa"

/-- The store identifier `sampleTid` parses to. -/
def sampleOid : OID := ⟨"aaaaaaaaaaaaaaaaaaaaaaaa"⟩

/-- A well-formed team id string. -/
def sampleTeamId : String := "bbbbbbbbbbbbbbbbbbbbbbbb"

/-- The store identifier `sampleTeamId` parses to. -/
def sampleTeamOid : OID := ⟨"bbbbbbbbbbbbbbbbbbbbbbbb"⟩

/-- A sample stored tournament with three attached teams. -/
def sampleTournament : TournamentDoc :=
  { _id := sampleOid, name := "PUBG Open", game := "PUBG Mobile",
    team_ids := ["bbbbbbbbbbbbbbbbbbbbbbbb", "cccccccccccccccccccccccc",
                 "dddddddddddddddddddddddd"] }

/-- A sample store holding `sampleTournament` and one team. -/
def sampleStore : Store :=
  { tournaments := [sampleTournament],
    teams := [{ _id := sampleTeamOid, team_name := "Alpha", team_logo := none }],
    «matches» := [], groups := [], standings := [], nextOid := 5 }

/-! ### Helper lemmas about the store-operation combinators -/

theorem length_assignIds (set : OID → α → α) (n : Nat) (ds : List α) :
    (assignIds set n ds).length = ds.length := by
  induction ds generalizing n with
  | nil => rfl
  | cons d ds ih => simp [assignIds, ih]

theorem getElem?_assignIds (set : OID → α → α) (n : Nat) (ds : List α) (k : Nat) :
    (assignIds set n ds)[k]? = (ds[k]?).map (set (oidOfNat (n + k))) := by
  induction ds generalizing n k with
  | nil => simp [assignIds]
  | cons d ds ih =>
    cases k with
    | zero => simp [assignIds]
    | succ k =>
      simp only [assignIds, List.getElem?_cons_succ, ih (n + 1) k]
      have : n + 1 + k = n + (k + 1) := by omega
      rw [this]

theorem length_updateFirst (p : α → Bool) (f : α → α) (l : List α) :
    (updateFirst p f l).length = l.length := by
  induction l with
  | nil => rfl
  | cons x xs ih =>
    by_cases h : p x <;> simp [updateFirst, h, ih]

theorem getElem?_updateFirst (p : α → Bool) (f : α → α) (l : List α) (k : Nat) :
    (updateFirst p f l)[k]? = l[k]? ∨
      ∃ x, l[k]? = some x ∧ p x = true ∧ (updateFirst p f l)[k]? = some (f x) := by
  induction l generalizing k with
  | nil => left; rfl
  | cons x xs ih =>
    by_cases h : p x
    · cases k with
      | zero => right; exact ⟨x, by simp, h, by simp [updateFirst, h]⟩
      | succ k => left; simp [updateFirst, h]
    · cases k with
      | zero => left; simp [updateFirst, h]
      | succ k =>
        rcases ih k with h1 | ⟨y, hy, hp, hy2⟩
        · left; simpa [updateFirst, h] using h1
        · right; exact ⟨y, by simpa using hy, hp, by simpa [updateFirst, h] using hy2⟩

theorem updateFirst_of_none (p : α → Bool) (f : α → α) (l : List α)
    (h : ∀ x ∈ l, p x = false) : updateFirst p f l = l := by
  induction l with
  | nil => rfl
  | cons x xs ih =>
    simp only [updateFirst, h x (List.mem_cons_self x xs)]
    simp only [Bool.false_eq_true, if_false, List.cons.injEq, true_and]
    exact ih fun y hy => h y (List.mem_cons_of_mem x hy)

theorem mem_updateFirst (p : α → Bool) (f : α → α) (l : List α) (x : α)
    (hx : x ∈ updateFirst p f l) : x ∈ l ∨ ∃ y ∈ l, x = f y := by
  induction l with
  | nil => simp [updateFirst] at hx
  | cons z zs ih =>
    by_cases h : p z
    · simp only [updateFirst, h, if_true, List.mem_cons] at hx
      rcases hx with h1 | h1
      · exact Or.inr ⟨z, List.mem_cons_self z zs, h1⟩
      · exact Or.inl (List.mem_cons_of_mem z h1)
    · simp only [updateFirst, h, Bool.false_eq_true, if_false, List.mem_cons] at hx
      rcases hx with h1 | h1
      · exact Or.inl (h1 ▸ List.mem_cons_self z zs)
      · rcases ih h1 with h2 | ⟨y, hy, hxy⟩
        · exact Or.inl (List.mem_cons_of_mem z h2)
        · exact Or.inr ⟨y, List.mem_cons_of_mem z hy, hxy⟩

theorem updateFirst_updateFirst (p : α → Bool) (f : α → α) (l : List α)
    (hpres : ∀ x, p x = true → p (f x) = true)
    (hidem : ∀ x, p x = true → f (f x) = f x) :
    updateFirst p f (updateFirst p f l) = updateFirst p f l := by
  induction l with
  | nil => rfl
  | cons x xs ih =>
    by_cases h : p x
    · simp [updateFirst, h, hpres x h, hidem x h]
    · simp [updateFirst, h, ih]

theorem map_assignIds (set : OID → α → α) (g : α → β) (n : Nat) (ds : List α)
    (hg : ∀ o x, g (set o x) = g x) :
    (assignIds set n ds).map g = ds.map g := by
  induction ds generalizing n with
  | nil => rfl
  | cons d ds ih => simp [assignIds, hg, ih]

theorem forall_mem_assignIds (set : OID → α → α) (n : Nat) (ds : List α)
    (q : α → Prop) (hset : ∀ o x, q x → q (set o x)) (h : ∀ x ∈ ds, q x) :
    ∀ x ∈ assignIds set n ds, q x := by
  induction ds generalizing n with
  | nil => intro x hx; simp [assignIds] at hx
  | cons d ds ih =>
    intro x hx
    simp only [assignIds, List.mem_cons] at hx
    rcases hx with h1 | h1
    · exact h1 ▸ hset _ _ (h d (List.mem_cons_self d ds))
    · exact ih (n + 1) (fun y hy => h y (List.mem_cons_of_mem d hy)) x h1

theorem length_flatMap_replicate (l : List α) (f : α → β) (m : Nat) :
    (l.flatMap (fun a => List.replicate m (f a))).length = l.length * m := by
  induction l with
  | nil => simp
  | cons a l ih => simp [ih]; ring

theorem getElem?_flatMap_replicate (l : List α) (f : α → β) (m : Nat)
    (hm : 0 < m) (j : Nat) :
    (l.flatMap (fun a => List.replicate m (f a)))[j]? = (l[j / m]?).map f := by
  induction l generalizing j with
  | nil => simp
  | cons a l ih =>
    rw [List.flatMap_cons, List.getElem?_append]
    by_cases hj : j < m
    · rw [if_pos (by simpa using hj), Nat.div_eq_of_lt hj]
      simp [List.getElem?_replicate, hj]
    · have hdiv : j / m = (j - m) / m + 1 := Nat.div_eq_sub_div hm (by omega)
      rw [if_neg (by simpa using hj), List.length_replicate, ih (j - m), hdiv]
      simp

theorem addToSetTeamIds_id (x : String) (t : TournamentDoc) :
    (addToSetTeamIds x t)._id = t._id := by
  unfold addToSetTeamIds; split <;> rfl

theorem addToSetTeamIds_idem (x : String) (t : TournamentDoc) :
    addToSetTeamIds x (addToSetTeamIds x t) = addToSetTeamIds x t := by
  by_cases h : x ∈ t.team_ids <;> simp [addToSetTeamIds, h]

theorem addToSetTeamIds_nodup (x : String) (t : TournamentDoc)
    (h : t.team_ids.Nodup) : (addToSetTeamIds x t).team_ids.Nodup := by
  by_cases hx : x ∈ t.team_ids
  · simpa [addToSetTeamIds, hx] using h
  · simp only [addToSetTeamIds, hx, Bool.false_eq_true, if_false]
    rw [List.nodup_append_comm]
    exact List.nodup_cons.mpr ⟨hx, h⟩

theorem storeNodup_attach_step (d : Option Store) (a : String)
    (p : AttachTeamRequest) (h : ∀ st, d = some st → storeNodup st) :
    ∀ st2, (attach_team d a p).2 = some st2 → storeNodup st2 := by
  cases d with
  | none => intro st2 h2; simp [attach_team] at h2
  | some st =>
    have hst := h st rfl
    intro st2 h2
    cases hpt : parseOID a with
    | none =>
      simp [attach_team, hpt] at h2
      exact h2 ▸ hst
    | some tid =>
      cases hpm : parseOID p.team_id with
      | none =>
        simp [attach_team, hpt, hpm] at h2
        exact h2 ▸ hst
      | some toid =>
        cases hft : st.teams.find? (fun tm => tm._id == toid) with
        | none =>
          simp [attach_team, hpt, hpm, hft] at h2
          exact h2 ▸ hst
        | some tm =>
          simp only [attach_team, hpt, hpm, hft, Option.some.injEq] at h2
          subst h2
          intro t ht
          rcases mem_updateFirst _ _ _ _ ht with hmem | ⟨y, hy, hty⟩
          · exact hst t hmem
          · exact hty ▸ addToSetTeamIds_nodup _ _ (hst y hy)

theorem getElem?_groupNames (G : Int) (i : Nat) (hi : i < G.toNat) :
    (groupNames G)[i]? = some (String.mk [Char.ofNat (65 + i)]) := by
  rw [groupNames, List.getElem?_map, List.getElem?_range hi]
  rfl

theorem length_groupNames (G : Int) : (groupNames G).length = G.toNat := by
  simp [groupNames]

theorem generate_groups_success (st : Store) (tournament_id : String)
    (tid : OID) (t : TournamentDoc) (p : GroupGenerationRequest)
    (hparse : parseOID tournament_id = some tid)
    (hfind : st.tournaments.find? (fun d => d._id == tid) = some t)
    (hG : ¬ p.number_of_groups = 0) :
    generate_groups (some st) tournament_id p
      = (.ok ⟨(groupNames p.number_of_groups).length,
              ((groupNames p.number_of_groups).flatMap (fun g =>
                List.replicate
                  (max 1 (Int.fdiv p.number_of_teams p.number_of_groups)).toNat
                  (mkStanding tournament_id g))).length⟩,
         some (insertStandings
            (insertGroups st ((groupNames p.number_of_groups).map (fun g =>
              ({ _id := oidOfNat 0, tournament_id := tournament_id,
                 name := g } : GroupDoc))))
            ((groupNames p.number_of_groups).flatMap (fun g =>
              List.replicate
                (max 1 (Int.fdiv p.number_of_teams p.number_of_groups)).toNat
                (mkStanding tournament_id g))))) := by
  simp only [generate_groups, hparse, hfind, hG, if_false, List.length_map]

/-! ### Claim theorems -/

/-- C1: for a tournament with `N` attached team ids (in stored order),
`generate_brackets` inserts exactly `⌈N/2⌉ = (N+1)/2` match records, match
`k` pairing the teams at indices `2k` and `2k+1`, with `round = 1` and
`winner_id = null`; the last match has `team2_id = null` iff `N` is odd, and
the response is `{created: (N+1)/2}`. -/
theorem generate_brackets_pairs (st : Store) (tournament_id : String)
    (tid : OID) (t : TournamentDoc)
    (hparse : parseOID tournament_id = some tid)
    (hfind : st.tournaments.find? (fun d => d._id == tid) = some t) :
    (generate_brackets (some st) tournament_id).1
        = .ok ⟨(t.team_ids.length + 1) / 2⟩ ∧
    ∃ st2 inserted,
      (generate_brackets (some st) tournament_id).2 = some st2 ∧
      st2.«matches» = st.«matches» ++ inserted ∧
      inserted.length = (t.team_ids.length + 1) / 2 ∧
      (∀ k m, inserted[k]? = some m →
        m.tournament_id = tournament_id ∧
        m.round = 1 ∧
        m.winner_id = none ∧
        m.team1_id = t.team_ids[2 * k]? ∧
        m.team1_id.isSome = true ∧
        m.team2_id = t.team_ids[2 * k + 1]? ∧
        (m.team2_id = none ↔ t.team_ids.length ≤ 2 * k + 1)) ∧
    (∀ m, inserted[(t.team_ids.length + 1) / 2 - 1]? = some m →
        (m.team2_id = none ↔ t.team_ids.length % 2 = 1)) := by
  have hlen : (generateMatchList tournament_id t.team_ids).length
      = (t.team_ids.length + 1) / 2 := by
    simp [generateMatchList]
  have hget : ∀ k m,
      (assignIds (fun o m => { m with _id := o }) st.nextOid
        (generateMatchList tournament_id t.team_ids))[k]? = some m →
      m.tournament_id = tournament_id ∧
      m.round = 1 ∧
      m.winner_id = none ∧
      m.team1_id = t.team_ids[2 * k]? ∧
      m.team1_id.isSome = true ∧
      m.team2_id = t.team_ids[2 * k + 1]? ∧
      (m.team2_id = none ↔ t.team_ids.length ≤ 2 * k + 1) := by
    intro k m hm
    obtain ⟨hk0, -⟩ := List.getElem?_eq_some_iff.mp hm
    rw [length_assignIds, hlen] at hk0
    rw [getElem?_assignIds, generateMatchList, List.getElem?_map,
      List.getElem?_range hk0] at hm
    simp only [Option.map_some', Option.some.injEq] at hm
    subst hm
    have h2k : 2 * k < t.team_ids.length := by omega
    refine ⟨rfl, rfl, rfl, rfl, ?_, rfl, ?_⟩
    · simp [List.getElem?_eq_getElem h2k]
    · simp [List.getElem?_eq_none_iff]
  constructor
  · simp [generate_brackets, hparse, hfind, hlen]
  · refine ⟨insertMatches st (generateMatchList tournament_id t.team_ids),
      assignIds (fun o m => { m with _id := o }) st.nextOid
        (generateMatchList tournament_id t.team_ids),
      by simp [generate_brackets, hparse, hfind],
      rfl, by rw [length_assignIds, hlen], hget, ?_⟩
    intro m hm
    have h := hget _ m hm
    obtain ⟨hk0, -⟩ := List.getElem?_eq_some_iff.mp hm
    rw [length_assignIds, hlen] at hk0
    rw [h.2.2.2.2.2.2]
    omega

/-- Witness for `generate_brackets_pairs` at the sample store: three attached
teams give two matches, the second lacking a `team2_id`. -/
theorem generate_brackets_pairs_witness :
    parseOID sampleTid = some sampleOid ∧
    sampleStore.tournaments.find? (fun d => d._id == sampleOid)
      = some sampleTournament ∧
    ((generate_brackets (some sampleStore) sampleTid).1
        = .ok ⟨(sampleTournament.team_ids.length + 1) / 2⟩ ∧
    ∃ st2 inserted,
      (generate_brackets (some sampleStore) sampleTid).2 = some st2 ∧
      st2.«matches» = sampleStore.«matches» ++ inserted ∧
      inserted.length = (sampleTournament.team_ids.length + 1) / 2 ∧
      (∀ k m, inserted[k]? = some m →
        m.tournament_id = sampleTid ∧
        m.round = 1 ∧
        m.winner_id = none ∧
        m.team1_id = sampleTournament.team_ids[2 * k]? ∧
        m.team1_id.isSome = true ∧
        m.team2_id = sampleTournament.team_ids[2 * k + 1]? ∧
        (m.team2_id = none ↔ sampleTournament.team_ids.length ≤ 2 * k + 1)) ∧
    (∀ m, inserted[(sampleTournament.team_ids.length + 1) / 2 - 1]? = some m →
        (m.team2_id = none ↔ sampleTournament.team_ids.length % 2 = 1))) :=
  ⟨by decide, by decide,
    generate_brackets_pairs sampleStore sampleTid sampleOid sampleTournament
      (by decide) (by decide)⟩

/-- C2: for an existing tournament, `number_of_groups = G ≥ 1` and
`number_of_teams = T ≥ 0`, `generate_groups` creates exactly `G` Group
records and `G * max 1 (T // G)` Standing records (`//` is Python floor
division, `Int.fdiv`), each new standing with `team_id = null` and
`total_points = 0`, laid out one group at a time with `max 1 (T // G)` slots
per group (the standing at offset `j` belongs to group number `j / slots`);
the response is `{groups_created: G, standing_slots: G * max 1 (T // G)}`. -/
theorem generate_groups_counts (st : Store) (tournament_id : String)
    (tid : OID) (t : TournamentDoc) (p : GroupGenerationRequest)
    (hparse : parseOID tournament_id = some tid)
    (hfind : st.tournaments.find? (fun d => d._id == tid) = some t)
    (hG : 1 ≤ p.number_of_groups) (_hT : 0 ≤ p.number_of_teams) :
    (generate_groups (some st) tournament_id p).1
      = .ok ⟨p.number_of_groups.toNat,
             p.number_of_groups.toNat *
               (max 1 (Int.fdiv p.number_of_teams p.number_of_groups)).toNat⟩ ∧
    ∃ st2 newGroups newStandings,
      (generate_groups (some st) tournament_id p).2 = some st2 ∧
      st2.groups = st.groups ++ newGroups ∧
      newGroups.length = p.number_of_groups.toNat ∧
      st2.standings = st.standings ++ newStandings ∧
      newStandings.length
        = p.number_of_groups.toNat *
            (max 1 (Int.fdiv p.number_of_teams p.number_of_groups)).toNat ∧
      (∀ s ∈ newStandings, s.team_id = none ∧ s.total_points = 0) ∧
      (∀ j s, newStandings[j]? = some s →
        s.group_name = String.mk [Char.ofNat (65 +
          j / (max 1 (Int.fdiv p.number_of_teams p.number_of_groups)).toNat)]) := by
  have hG0 : ¬ p.number_of_groups = 0 := by omega
  have hsucc := generate_groups_success st tournament_id tid t p hparse hfind hG0
  have hSpos :
      0 < (max 1 (Int.fdiv p.number_of_teams p.number_of_groups)).toNat := by
    have h1 : (1 : Int) ≤ max 1 (Int.fdiv p.number_of_teams p.number_of_groups) :=
      le_max_left _ _
    omega
  have hstand_len : ((groupNames p.number_of_groups).flatMap (fun g =>
      List.replicate (max 1 (Int.fdiv p.number_of_teams p.number_of_groups)).toNat
        (mkStanding tournament_id g))).length
      = p.number_of_groups.toNat *
          (max 1 (Int.fdiv p.number_of_teams p.number_of_groups)).toNat := by
    rw [length_flatMap_replicate, length_groupNames]
  constructor
  · simp only [hsucc]
    rw [length_groupNames, hstand_len]
  · refine ⟨_,
      assignIds (fun o g => { g with _id := o }) st.nextOid
        ((groupNames p.number_of_groups).map (fun g =>
          ({ _id := oidOfNat 0, tournament_id := tournament_id,
             name := g } : GroupDoc))),
      assignIds (fun o s => { s with _id := o })
        (st.nextOid + ((groupNames p.number_of_groups).map (fun g =>
          ({ _id := oidOfNat 0, tournament_id := tournament_id,
             name := g } : GroupDoc))).length)
        ((groupNames p.number_of_groups).flatMap (fun g =>
          List.replicate
            (max 1 (Int.fdiv p.number_of_teams p.number_of_groups)).toNat
            (mkStanding tournament_id g))),
      by rw [hsucc], rfl, ?_, rfl, ?_, ?_, ?_⟩
    · rw [length_assignIds, List.length_map, length_groupNames]
    · rw [length_assignIds, hstand_len]
    · refine forall_mem_assignIds _ _ _ _ (fun o x hx => hx) ?_
      intro x hx
      rcases List.mem_flatMap.mp hx with ⟨g, -, hxr⟩
      rw [List.eq_of_mem_replicate hxr]
      exact ⟨rfl, rfl⟩
    · intro j s hjs
      rw [getElem?_assignIds] at hjs
      rcases Option.map_eq_some'.mp hjs with ⟨s0, hs0, hset⟩
      rw [getElem?_flatMap_replicate _ _ _ hSpos] at hs0
      rcases Option.map_eq_some'.mp hs0 with ⟨nm, hnm, hmk⟩
      obtain ⟨hjS, -⟩ := List.getElem?_eq_some_iff.mp hnm
      rw [length_groupNames] at hjS
      rw [getElem?_groupNames _ _ hjS] at hnm
      have hnm2 : nm = String.mk [Char.ofNat (65 +
          j / (max 1 (Int.fdiv p.number_of_teams p.number_of_groups)).toNat)] :=
        (Option.some.inj hnm).symm
      rw [← hset, ← hmk, hnm2]
      rfl

/-- Witness for `generate_groups_counts` at the sample store with
`number_of_teams = 10`, `number_of_groups = 3`: three groups and nine empty
standing slots. -/
theorem generate_groups_counts_witness :
    parseOID sampleTid = some sampleOid ∧
    sampleStore.tournaments.find? (fun d => d._id == sampleOid)
      = some sampleTournament ∧
    (1 : Int) ≤ (3 : Int) ∧ (0 : Int) ≤ (10 : Int) ∧
    ((generate_groups (some sampleStore) sampleTid ⟨10, 3⟩).1
      = .ok ⟨(3 : Int).toNat, (3 : Int).toNat * (max 1 (Int.fdiv 10 3)).toNat⟩ ∧
    ∃ st2 newGroups newStandings,
      (generate_groups (some sampleStore) sampleTid ⟨10, 3⟩).2 = some st2 ∧
      st2.groups = sampleStore.groups ++ newGroups ∧
      newGroups.length = (3 : Int).toNat ∧
      st2.standings = sampleStore.standings ++ newStandings ∧
      newStandings.length = (3 : Int).toNat * (max 1 (Int.fdiv 10 3)).toNat ∧
      (∀ s ∈ newStandings, s.team_id = none ∧ s.total_points = 0) ∧
      (∀ j s, newStandings[j]? = some s →
        s.group_name = String.mk [Char.ofNat (65 +
          j / (max 1 (Int.fdiv 10 3)).toNat)])) :=
  ⟨by decide, by decide, by decide, by decide,
   generate_groups_counts sampleStore sampleTid sampleOid sampleTournament
     ⟨10, 3⟩ (by decide) (by decide) (by decide) (by decide)⟩

/-- C6 (amended: restricted to `N ≤ 26`): for `1 ≤ number_of_groups = N ≤ 26`
the `N` Group records created by `generate_groups` are named with the first
`N` letters of the alphabet in sequence (the `i`-th group is
`chr(ord('A') + i)`), each name a single uppercase letter.  For `N > 26` the
code continues past `'Z'` into subsequent ASCII characters
(see `generate_groups_names_cex`). -/
theorem generate_groups_names_alphabet (st : Store) (tournament_id : String)
    (tid : OID) (t : TournamentDoc) (p : GroupGenerationRequest)
    (hparse : parseOID tournament_id = some tid)
    (hfind : st.tournaments.find? (fun d => d._id == tid) = some t)
    (hG1 : 1 ≤ p.number_of_groups) (hG26 : p.number_of_groups ≤ 26) :
    ∃ st2 newGroups,
      (generate_groups (some st) tournament_id p).2 = some st2 ∧
      st2.groups = st.groups ++ newGroups ∧
      newGroups.length = p.number_of_groups.toNat ∧
      ∀ i g, newGroups[i]? = some g →
        g.name = String.mk [Char.ofNat (65 + i)] ∧
        g.name.data.length = 1 ∧
        g.name.data.all Char.isUpper = true ∧
        g.tournament_id = tournament_id := by
  have hG0 : ¬ p.number_of_groups = 0 := by omega
  have hsucc := generate_groups_success st tournament_id tid t p hparse hfind hG0
  refine ⟨_,
    assignIds (fun o g => { g with _id := o }) st.nextOid
      ((groupNames p.number_of_groups).map (fun g =>
        ({ _id := oidOfNat 0, tournament_id := tournament_id,
           name := g } : GroupDoc))),
    by rw [hsucc], rfl,
    by rw [length_assignIds, List.length_map, length_groupNames], ?_⟩
  intro i g hig
  rw [getElem?_assignIds] at hig
  rcases Option.map_eq_some'.mp hig with ⟨g0, hg0, hset⟩
  rw [List.getElem?_map] at hg0
  rcases Option.map_eq_some'.mp hg0 with ⟨nm, hnm, hmk⟩
  obtain ⟨hiG, -⟩ := List.getElem?_eq_some_iff.mp hnm
  rw [length_groupNames] at hiG
  rw [getElem?_groupNames _ _ hiG] at hnm
  have hnm2 : nm = String.mk [Char.ofNat (65 + i)] := (Option.some.inj hnm).symm
  have hgname : g.name = String.mk [Char.ofNat (65 + i)] := by
    rw [← hset, ← hmk, hnm2]
  have hi25 : i ≤ 25 := by omega
  refine ⟨hgname, by rw [hgname]; rfl, ?_, by rw [← hset, ← hmk]⟩
  rw [hgname]
  interval_cases i <;> decide

/-- Witness for `generate_groups_names_alphabet` at the sample store with
three groups `A`, `B`, `C`. -/
theorem generate_groups_names_alphabet_witness :
    parseOID sampleTid = some sampleOid ∧
    sampleStore.tournaments.find? (fun d => d._id == sampleOid)
      = some sampleTournament ∧
    (1 : Int) ≤ (3 : Int) ∧ (3 : Int) ≤ (26 : Int) ∧
    (∃ st2 newGroups,
      (generate_groups (some sampleStore) sampleTid ⟨10, 3⟩).2 = some st2 ∧
      st2.groups = sampleStore.groups ++ newGroups ∧
      newGroups.length = (3 : Int).toNat ∧
      ∀ i g, newGroups[i]? = some g →
        g.name = String.mk [Char.ofNat (65 + i)] ∧
        g.name.data.length = 1 ∧
        g.name.data.all Char.isUpper = true ∧
        g.tournament_id = sampleTid) :=
  ⟨by decide, by decide, by decide, by decide,
   generate_groups_names_alphabet sampleStore sampleTid sampleOid
     sampleTournament ⟨10, 3⟩ (by decide) (by decide) (by decide) (by decide)⟩

/-- C6 counterexample: with `number_of_groups = 27 ≥ 1`, the 27th group
created by `generate_groups` is named `"["` (the ASCII character after
`'Z'`), which is not an uppercase letter of the alphabet, so the unrestricted
claim fails at `N = 27`. -/
theorem generate_groups_names_cex :
    ((generate_groups (some sampleStore) sampleTid ⟨0, 27⟩).2.map
        (fun st2 => st2.groups.length)) = some 27 ∧
    ((generate_groups (some sampleStore) sampleTid ⟨0, 27⟩).2.map
        (fun st2 => (st2.groups.map (fun g => g.name))[26]?))
      = some (some "[") ∧
    "[".data.all Char.isUpper = false := by
  decide

/-- C3: `attach_team` is an idempotent set insert: attaching a team twice
leaves the whole result (response and store) equal to attaching it once, and
starting from a store without duplicate `team_ids` entries, no sequence of
attach operations ever introduces a duplicate entry. -/
theorem attach_team_set_semantics (db : Option Store) (tournament_id : String)
    (payload : AttachTeamRequest) (ops : List (String × AttachTeamRequest))
    (hnd : ∀ st, db = some st → storeNodup st) :
    attach_team (attach_team db tournament_id payload).2 tournament_id payload
      = attach_team db tournament_id payload ∧
    ∀ st2, ops.foldl (fun d op => (attach_team d op.1 op.2).2) db = some st2 →
      storeNodup st2 := by
  constructor
  · cases db with
    | none => rfl
    | some st =>
      cases hpt : parseOID tournament_id with
      | none => simp [attach_team, hpt]
      | some tid =>
        cases hpm : parseOID payload.team_id with
        | none => simp [attach_team, hpt, hpm]
        | some toid =>
          cases hft : st.teams.find? (fun tm => tm._id == toid) with
          | none => simp [attach_team, hpt, hpm, hft]
          | some tm =>
            simp only [attach_team, hpt, hpm, hft]
            rw [updateFirst_updateFirst]
            · intro x hx
              rw [beq_iff_eq] at hx ⊢
              rw [addToSetTeamIds_id, hx]
            · intro x _
              exact addToSetTeamIds_idem payload.team_id x
  · induction ops generalizing db with
    | nil => intro st2 h2; exact hnd st2 h2
    | cons op ops ih =>
      intro st2 h2
      rw [List.foldl_cons] at h2
      exact ih _ (storeNodup_attach_step db op.1 op.2 hnd) st2 h2

/-- Witness for `attach_team_set_semantics` at the sample store, attaching
the stored team twice and folding one further attach operation. -/
theorem attach_team_set_semantics_witness :
    (∀ st, some sampleStore = some st → storeNodup st) ∧
    (attach_team
        (attach_team (some sampleStore) sampleTid ⟨sampleTeamId⟩).2
        sampleTid ⟨sampleTeamId⟩
      = attach_team (some sampleStore) sampleTid ⟨sampleTeamId⟩ ∧
    ∀ st2,
      ([(sampleTid, (⟨sampleTeamId⟩ : AttachTeamRequest))].foldl
          (fun d op => (attach_team d op.1 op.2).2) (some sampleStore))
        = some st2 →
      storeNodup st2) :=
  ⟨by intro st h; cases h; decide,
   attach_team_set_semantics (some sampleStore) sampleTid ⟨sampleTeamId⟩
     [(sampleTid, ⟨sampleTeamId⟩)]
     (by intro st h; cases h; decide)⟩

/-- C8: `generate_brackets` has no idempotence guard: on a tournament with
`N ≥ 1` attached teams and no previously stored matches for it, calling the
endpoint twice appends the same round-1 match data a second time, leaving
`2 * ⌈N/2⌉` matches for that tournament. -/
theorem generate_brackets_appends_duplicates (st : Store)
    (tournament_id : String) (tid : OID) (t : TournamentDoc)
    (hparse : parseOID tournament_id = some tid)
    (hfind : st.tournaments.find? (fun d => d._id == tid) = some t)
    (hN : 1 ≤ t.team_ids.length)
    (hfresh : st.«matches».filter (fun m => m.tournament_id == tournament_id)
      = []) :
    ∃ st1 st2,
      (generate_brackets (some st) tournament_id).2 = some st1 ∧
      (generate_brackets (some st1) tournament_id).2 = some st2 ∧
      ∃ dup, dup ≠ [] ∧
        st2.«matches».map MatchDoc.fields
          = st.«matches».map MatchDoc.fields ++ (dup ++ dup) ∧
        (st2.«matches».filter
            (fun m => m.tournament_id == tournament_id)).length
          = 2 * ((t.team_ids.length + 1) / 2) := by
  have hlen : (generateMatchList tournament_id t.team_ids).length
      = (t.team_ids.length + 1) / 2 := by
    simp [generateMatchList]
  have hallms : ∀ m ∈ generateMatchList tournament_id t.team_ids,
      (fun m => m.tournament_id == tournament_id) m = true := by
    intro m hm
    rcases List.mem_map.mp hm with ⟨k, -, hk⟩
    subst hk
    simp
  have hallA : ∀ n, ∀ m ∈ assignIds (fun o m => { m with _id := o }) n
      (generateMatchList tournament_id t.team_ids),
      (fun m => m.tournament_id == tournament_id) m = true := by
    intro n
    exact forall_mem_assignIds _ _ _ _ (fun o x hx => hx) hallms
  have hmapA : ∀ n, (assignIds (fun o m => { m with _id := o }) n
        (generateMatchList tournament_id t.team_ids)).map MatchDoc.fields
      = (generateMatchList tournament_id t.team_ids).map MatchDoc.fields :=
    fun n => map_assignIds _ _ n _ (fun o x => rfl)
  have hlenA : ∀ n, (assignIds (fun o m => { m with _id := o }) n
        (generateMatchList tournament_id t.team_ids)).length
      = (t.team_ids.length + 1) / 2 :=
    fun n => by rw [length_assignIds, hlen]
  refine ⟨insertMatches st (generateMatchList tournament_id t.team_ids),
    insertMatches (insertMatches st (generateMatchList tournament_id t.team_ids))
      (generateMatchList tournament_id t.team_ids),
    by simp [generate_brackets, hparse, hfind],
    by simp [generate_brackets, insertMatches, hparse, hfind], ?_⟩
  refine ⟨(generateMatchList tournament_id t.team_ids).map MatchDoc.fields,
    ?_, ?_, ?_⟩
  · intro hnil
    have : ((generateMatchList tournament_id t.team_ids).map
        MatchDoc.fields).length = 0 := by rw [hnil]; rfl
    rw [List.length_map, hlen] at this
    omega
  · show ((st.«matches» ++ _) ++ _).map MatchDoc.fields = _
    rw [List.map_append, List.map_append, hmapA, hmapA, List.append_assoc]
  · show (((st.«matches» ++ _) ++ _).filter _).length = _
    rw [List.filter_append, List.filter_append, hfresh,
      List.filter_eq_self.mpr (hallA _), List.filter_eq_self.mpr (hallA _)]
    simp only [List.nil_append, List.length_append]
    rw [hlenA, hlenA]
    omega

/-- Witness for `generate_brackets_appends_duplicates` at the sample store:
three teams, two calls, four stored matches for the tournament. -/
theorem generate_brackets_appends_duplicates_witness :
    parseOID sampleTid = some sampleOid ∧
    sampleStore.tournaments.find? (fun d => d._id == sampleOid)
      = some sampleTournament ∧
    1 ≤ sampleTournament.team_ids.length ∧
    sampleStore.«matches».filter (fun m => m.tournament_id == sampleTid)
      = [] ∧
    (∃ st1 st2,
      (generate_brackets (some sampleStore) sampleTid).2 = some st1 ∧
      (generate_brackets (some st1) sampleTid).2 = some st2 ∧
      ∃ dup, dup ≠ [] ∧
        st2.«matches».map MatchDoc.fields
          = sampleStore.«matches».map MatchDoc.fields ++ (dup ++ dup) ∧
        (st2.«matches».filter
            (fun m => m.tournament_id == sampleTid)).length
          = 2 * ((sampleTournament.team_ids.length + 1) / 2)) :=
  ⟨by decide, by decide, by decide, by decide,
   generate_brackets_appends_duplicates sampleStore sampleTid sampleOid
     sampleTournament (by decide) (by decide) (by decide) (by decide)⟩

/-- C9: `attach_team` never checks that the tournament exists: with a
well-formed tournament id that matches no stored tournament and an existing
team, it answers `{ok: true}` and leaves the store exactly unchanged. -/
theorem attach_team_missing_tournament (st : Store) (tournament_id : String)
    (tid : OID) (payload : AttachTeamRequest) (team_oid : OID) (team : TeamDoc)
    (hparse : parseOID tournament_id = some tid)
    (hparse2 : parseOID payload.team_id = some team_oid)
    (hteam : st.teams.find? (fun tm => tm._id == team_oid) = some team)
    (habsent : ∀ t ∈ st.tournaments, t._id ≠ tid) :
    attach_team (some st) tournament_id payload = (.ok ⟨true⟩, some st) := by
  simp only [attach_team, hparse, hparse2, hteam]
  rw [updateFirst_of_none _ _ _
    (fun x hx => by simp [beq_eq_false_iff_ne, habsent x hx])]

/-- Witness for `attach_team_missing_tournament`: a well-formed id that is in
no stored tournament, with the stored team attached to it. -/
theorem attach_team_missing_tournament_witness :
    parseOID "cccccccccccccccccccccccc"
      = some (⟨"cccccccccccccccccccccccc"⟩ : OID) ∧
    parseOID sampleTeamId = some sampleTeamOid ∧
    sampleStore.teams.find? (fun tm => tm._id == sampleTeamOid)
      = some { _id := sampleTeamOid, team_name := "Alpha", team_logo := none } ∧
    (∀ t ∈ sampleStore.tournaments,
      t._id ≠ (⟨"cccccccccccccccccccccccc"⟩ : OID)) ∧
    attach_team (some sampleStore) "cccccccccccccccccccccccc" ⟨sampleTeamId⟩
      = (.ok ⟨true⟩, some sampleStore) :=
  ⟨by decide, by decide, by decide, by decide,
   attach_team_missing_tournament sampleStore "cccccccccccccccccccccccc"
     ⟨"cccccccccccccccccccccccc"⟩ ⟨sampleTeamId⟩ sampleTeamOid
     { _id := sampleTeamOid, team_name := "Alpha", team_logo := none }
     (by decide) (by decide) (by decide) (by decide)⟩

/-- C4: `update_match` and `update_standing` with a well-formed id apply
only the non-null submitted fields to the targeted document, keep every
other field (and every other document and collection) unchanged, answer
`{ok: true}`, and leave the store entirely unchanged when the body is
empty/all-null. -/
theorem update_partial_semantics (st : Store) (id : String) (oid : OID)
    (pm : UpdateMatchRequest) (ps : UpdateStandingRequest)
    (hparse : parseOID id = some oid) :
    (pm.team1_id = none ∧ pm.team2_id = none ∧ pm.winner_id = none →
      update_match (some st) id pm = (.ok ⟨true⟩, some st)) ∧
    (ps.team_id = none ∧ ps.team_country_flag = none ∧ ps.team_logo = none ∧
        ps.team_name = none ∧ ps.total_points = none →
      update_standing (some st) id ps = (.ok ⟨true⟩, some st)) ∧
    (update_match (some st) id pm).1 = .ok ⟨true⟩ ∧
    (update_standing (some st) id ps).1 = .ok ⟨true⟩ ∧
    (∀ st2, (update_match (some st) id pm).2 = some st2 →
      st2.tournaments = st.tournaments ∧ st2.teams = st.teams ∧
      st2.groups = st.groups ∧ st2.standings = st.standings ∧
      st2.«matches».length = st.«matches».length ∧
      ∀ k : Nat, st2.«matches»[k]? = st.«matches»[k]? ∨
        ∃ m : MatchDoc, st.«matches»[k]? = some m ∧ m._id = oid ∧
          st2.«matches»[k]? = some
            { m with team1_id := setOpt pm.team1_id m.team1_id,
                     team2_id := setOpt pm.team2_id m.team2_id,
                     winner_id := setOpt pm.winner_id m.winner_id }) ∧
    (∀ st2, (update_standing (some st) id ps).2 = some st2 →
      st2.tournaments = st.tournaments ∧ st2.teams = st.teams ∧
      st2.groups = st.groups ∧ st2.«matches» = st.«matches» ∧
      st2.standings.length = st.standings.length ∧
      ∀ k : Nat, st2.standings[k]? = st.standings[k]? ∨
        ∃ s : StandingDoc, st.standings[k]? = some s ∧ s._id = oid ∧
          st2.standings[k]? = some
            { s with team_id := setOpt ps.team_id s.team_id,
                     team_country_flag :=
                       setOpt ps.team_country_flag s.team_country_flag,
                     team_logo := setOpt ps.team_logo s.team_logo,
                     team_name := setOpt ps.team_name s.team_name,
                     total_points :=
                       match ps.total_points with
                       | some v => v
                       | none => s.total_points }) := by
  refine ⟨?_, ?_, ?_, ?_, ?_, ?_⟩
  · rintro ⟨h1, h2, h3⟩
    simp [update_match, hparse, matchHasUpdates, h1, h2, h3]
  · rintro ⟨h1, h2, h3, h4, h5⟩
    simp [update_standing, hparse, standingHasUpdates, h1, h2, h3, h4, h5]
  · by_cases h : matchHasUpdates pm <;> simp [update_match, hparse, h]
  · by_cases h : standingHasUpdates ps <;> simp [update_standing, hparse, h]
  · intro st2 h2
    by_cases hup : matchHasUpdates pm
    · simp only [update_match, hparse, hup, if_true, Option.some.injEq] at h2
      subst h2
      refine ⟨rfl, rfl, rfl, rfl, length_updateFirst _ _ _, ?_⟩
      intro k
      rcases getElem?_updateFirst (fun m => m._id == oid)
          (applyMatchUpdates pm) st.«matches» k with h | ⟨x, hx, hpx, hfx⟩
      · exact Or.inl h
      · exact Or.inr ⟨x, hx, beq_iff_eq.mp hpx, hfx⟩
    · simp only [update_match, hparse, hup, if_false, Option.some.injEq,
        Bool.false_eq_true] at h2
      subst h2
      exact ⟨rfl, rfl, rfl, rfl, rfl, fun k => Or.inl rfl⟩
  · intro st2 h2
    by_cases hup : standingHasUpdates ps
    · simp only [update_standing, hparse, hup, if_true, Option.some.injEq] at h2
      subst h2
      refine ⟨rfl, rfl, rfl, rfl, length_updateFirst _ _ _, ?_⟩
      intro k
      rcases getElem?_updateFirst (fun s => s._id == oid)
          (applyStandingUpdates ps) st.standings k with h | ⟨x, hx, hpx, hfx⟩
      · exact Or.inl h
      · exact Or.inr ⟨x, hx, beq_iff_eq.mp hpx, hfx⟩
    · simp only [update_standing, hparse, hup, if_false, Option.some.injEq,
        Bool.false_eq_true] at h2
      subst h2
      exact ⟨rfl, rfl, rfl, rfl, rfl, fun k => Or.inl rfl⟩

/-- Witness for `update_partial_semantics`: a match update submitting only
`team1_id` and a standing update submitting only `total_points`, on the
sample store. -/
theorem update_partial_semantics_witness :
    parseOID sampleTid = some sampleOid ∧
    (((⟨some "x", none, none⟩ : UpdateMatchRequest).team1_id = none ∧
        (⟨some "x", none, none⟩ : UpdateMatchRequest).team2_id = none ∧
        (⟨some "x", none, none⟩ : UpdateMatchRequest).winner_id = none →
      update_match (some sampleStore) sampleTid ⟨some "x", none, none⟩
        = (.ok ⟨true⟩, some sampleStore)) ∧
    (((⟨none, none, none, none, some 5⟩ : UpdateStandingRequest).team_id = none ∧
        (⟨none, none, none, none, some 5⟩ :
          UpdateStandingRequest).team_country_flag = none ∧
        (⟨none, none, none, none, some 5⟩ :
          UpdateStandingRequest).team_logo = none ∧
        (⟨none, none, none, none, some 5⟩ :
          UpdateStandingRequest).team_name = none ∧
        (⟨none, none, none, none, some 5⟩ :
          UpdateStandingRequest).total_points = none →
      update_standing (some sampleStore) sampleTid ⟨none, none, none, none, some 5⟩
        = (.ok ⟨true⟩, some sampleStore)) ∧
    (update_match (some sampleStore) sampleTid ⟨some "x", none, none⟩).1
      = .ok ⟨true⟩ ∧
    (update_standing (some sampleStore) sampleTid
        ⟨none, none, none, none, some 5⟩).1 = .ok ⟨true⟩ ∧
    (∀ st2, (update_match (some sampleStore) sampleTid
        ⟨some "x", none, none⟩).2 = some st2 →
      st2.tournaments = sampleStore.tournaments ∧ st2.teams = sampleStore.teams ∧
      st2.groups = sampleStore.groups ∧ st2.standings = sampleStore.standings ∧
      st2.«matches».length = sampleStore.«matches».length ∧
      ∀ k : Nat, st2.«matches»[k]? = sampleStore.«matches»[k]? ∨
        ∃ m : MatchDoc, sampleStore.«matches»[k]? = some m ∧ m._id = sampleOid ∧
          st2.«matches»[k]? = some
            { m with
              team1_id := setOpt (some "x") m.team1_id,
              team2_id := setOpt none m.team2_id,
              winner_id := setOpt none m.winner_id }) ∧
    (∀ st2, (update_standing (some sampleStore) sampleTid
        ⟨none, none, none, none, some 5⟩).2 = some st2 →
      st2.tournaments = sampleStore.tournaments ∧ st2.teams = sampleStore.teams ∧
      st2.groups = sampleStore.groups ∧ st2.«matches» = sampleStore.«matches» ∧
      st2.standings.length = sampleStore.standings.length ∧
      ∀ k : Nat, st2.standings[k]? = sampleStore.standings[k]? ∨
        ∃ s : StandingDoc, sampleStore.standings[k]? = some s ∧ s._id = sampleOid ∧
          st2.standings[k]? = some
            { s with
              team_id := setOpt none s.team_id,
              team_country_flag := setOpt none s.team_country_flag,
              team_logo := setOpt none s.team_logo,
              team_name := setOpt none s.team_name,
              total_points :=
                match (some 5 : Option Int) with
                | some v => v
                | none => s.total_points }))) :=
  ⟨by decide,
   update_partial_semantics sampleStore sampleTid sampleOid
     ⟨some "x", none, none⟩ ⟨none, none, none, none, some 5⟩ (by decide)⟩

/-- C5: `get_tournament` fails 500 when the store is not configured, 400 on
an id that does not parse as a store identifier, 404 on a well-formed id
referencing no stored tournament, and otherwise returns the stored
tournament with its store identifier renamed to the string field `id`. -/
theorem get_tournament_cases (db : Option Store) (tournament_id : String) :
    (db = none →
      get_tournament db tournament_id
        = .error (.http 500 "Database not configured")) ∧
    (∀ st, db = some st →
      (parseOID tournament_id = none →
        get_tournament db tournament_id
          = .error (.http 400 "Invalid tournament id")) ∧
      (∀ tid, parseOID tournament_id = some tid →
        (st.tournaments.find? (fun d => d._id == tid) = none →
          get_tournament db tournament_id = .error (.http 404 "Not found")) ∧
        (∀ d, st.tournaments.find? (fun d2 => d2._id == tid) = some d →
          get_tournament db tournament_id
            = .ok { id := d._id.hex, name := d.name, game := d.game,
                    team_ids := d.team_ids }))) := by
  refine ⟨fun h => by rw [h]; rfl, fun st h => ?_⟩
  subst h
  refine ⟨fun hp => by simp [get_tournament, hp], fun tid hp => ?_⟩
  refine ⟨fun hf => by simp [get_tournament, hp, hf], fun d hf => ?_⟩
  simp [get_tournament, hp, hf, serialize_tournament]

/-- Witness for `get_tournament_cases`: fetching the sample tournament by its
well-formed id returns it serialized with the `id` string field. -/
theorem get_tournament_cases_witness :
    parseOID sampleTid = some sampleOid ∧
    sampleStore.tournaments.find? (fun d2 => d2._id == sampleOid)
      = some sampleTournament ∧
    get_tournament (some sampleStore) sampleTid
      = .ok { id := sampleTournament._id.hex, name := sampleTournament.name,
              game := sampleTournament.game,
              team_ids := sampleTournament.team_ids } :=
  ⟨by decide, by decide,
   (((get_tournament_cases (some sampleStore) sampleTid).2 sampleStore rfl).2
       sampleOid (by decide)).2 sampleTournament (by decide)⟩

/-- C7 (amended: the filter applies only to non-empty game strings): with
the store unavailable `list_tournaments` returns `[]`; a provided non-empty
`game` returns exactly the tournaments whose `game` field equals it; with no
`game`, or with the empty string (falsy in Python, so the filter is
dropped), it returns all tournaments. -/
theorem list_tournaments_filter (db : Option Store) (game : Option String) :
    (db = none → list_tournaments db game = []) ∧
    (∀ st, db = some st →
      (∀ g, game = some g → g ≠ "" →
        list_tournaments db game
          = (st.tournaments.filter (fun d => d.game == g)).map
              serialize_tournament) ∧
      (game = none ∨ game = some "" →
        list_tournaments db game = st.tournaments.map serialize_tournament)) := by
  refine ⟨fun h => by rw [h]; rfl, fun st h => ?_⟩
  subst h
  constructor
  · intro g hg hne
    subst hg
    have hemp : g.isEmpty = false :=
      Bool.eq_false_iff.mpr (fun hemp => hne ((String.isEmpty_iff g).mp hemp))
    have htr : strTruthy (some g) = true := by
      simp [strTruthy, hemp]
    simp [list_tournaments, get_documents_tournament, htr]
  · rintro (h | h) <;> subst h <;> rfl

/-- Witness for `list_tournaments_filter`: filtering the sample store by the
non-empty game string "PUBG Mobile". -/
theorem list_tournaments_filter_witness :
    ("PUBG Mobile" : String) ≠ "" ∧
    list_tournaments (some sampleStore) (some "PUBG Mobile")
      = (sampleStore.tournaments.filter
          (fun d => d.game == "PUBG Mobile")).map serialize_tournament :=
  ⟨by decide,
   ((list_tournaments_filter (some sampleStore) (some "PUBG Mobile")).2
       sampleStore rfl).1 "PUBG Mobile" rfl (by decide)⟩

/-- C7 counterexample: the empty string is a provided game string, but Python
falsiness drops the filter, so the listing returns all tournaments instead
of exactly those whose `game` equals `""` — the unrestricted claim fails. -/
theorem list_tournaments_empty_game_cex :
    list_tournaments (some sampleStore) (some "")
        ≠ (sampleStore.tournaments.filter (fun d => d.game == "")).map
            serialize_tournament ∧
    list_tournaments (some sampleStore) (some "")
      = sampleStore.tournaments.map serialize_tournament := by
  decide

/-- C10: `generate_groups` with `number_of_groups = 0` on an existing
tournament fails with an unhandled `ZeroDivisionError`, and at that point no
Group and no Standing document has been inserted: the store is returned
exactly as it was. -/
theorem generate_groups_zero_groups (st : Store) (tournament_id : String)
    (tid : OID) (t : TournamentDoc) (T : Int)
    (hparse : parseOID tournament_id = some tid)
    (hfind : st.tournaments.find? (fun d => d._id == tid) = some t) :
    generate_groups (some st) tournament_id ⟨T, 0⟩
      = (.error .zeroDivisionError, some st) := by
  simp [generate_groups, hparse, hfind, groupNames, insertGroups, assignIds]

/-- Witness for `generate_groups_zero_groups` at the sample store with
`number_of_teams = 7`. -/
theorem generate_groups_zero_groups_witness :
    parseOID sampleTid = some sampleOid ∧
    sampleStore.tournaments.find? (fun d => d._id == sampleOid)
      = some sampleTournament ∧
    generate_groups (some sampleStore) sampleTid ⟨7, 0⟩
      = (.error .zeroDivisionError, some sampleStore) :=
  ⟨by decide, by decide,
   generate_groups_zero_groups sampleStore sampleTid sampleOid
     sampleTournament 7 (by decide) (by decide)⟩

end Esports
